import Mathlib

/-!
Verification development for the flannel daemon entry point (`main.go`).

The Go source is shallowly embedded: pure control flow becomes Lean
functions, external effects (etcd calls, JSON decoding, the backend's
`Init`/`Run` methods, file creation) become explicit oracle parameters
recording the outcome the external call would produce, and the events
the code performs are collected into explicit traces.
-/

/-- Go errors as seen by `main.go`: `nil` is `Option.none`; the sentinel
`task.ErrCanceled` and all other errors are distinguished. -/
inductive GoErr where
  | canceled : GoErr
  | other : String → GoErr
deriving DecidableEq, Repr

/-- The two backend variants `newBackend` can construct: the UDP
encapsulating backend (`udp.New`) and the lease-only backend (`alloc.New`). -/
inductive BackendKind where
  | udp : BackendKind
  | alloc : BackendKind
deriving DecidableEq, Repr

/-- Go's `strings.ToLower`, embedded as the per-character lowercase map
(the tags involved are ASCII, where the two agree). -/
def goToLower (s : String) : String :=
  String.mk (s.data.map Char.toLower)

/-- Go's `strings.ToUpper`, embedded as the per-character uppercase map. -/
def goToUpper (s : String) : String :=
  String.mk (s.data.map Char.toUpper)

/-- The `switch strings.ToLower(bt.Type)` dispatch at the end of
`newBackend` (main.go:157-164): lowercase the tag, return the matching
backend, or an error for an unrecognized tag. -/
def backendSwitch (tag : String) : Except String BackendKind :=
  if goToLower tag = "udp" then Except.ok BackendKind.udp
  else if goToLower tag = "alloc" then Except.ok BackendKind.alloc
  else Except.error (tag ++ ": unknown backend type")

/-- `newBackend` (main.go:141-165) after the subnet manager has been
created. `backendPayload` is `config.Backend` (the raw JSON bytes, here a
string); `decodeType` is the oracle for `json.Unmarshal` on a non-empty
payload, yielding either a decode error or the decoded `Type` field.
If the payload is empty the type defaults to `"udp"` without decoding. -/
def newBackend (backendPayload : String) (decodeType : Except String String) :
    Except String BackendKind :=
  if backendPayload.length = 0 then
    backendSwitch "udp"
  else
    match decodeType with
    | Except.error e => Except.error ("Error decoding Backend property of config: " ++ e)
    | Except.ok t => backendSwitch t

/-- `main`'s reaction to `newBackend`'s result (main.go:224-228):
an error logs and exits the process with code 1; success continues
(no early exit, modelled as `none`). -/
def mainBackendExit (res : Except String BackendKind) : Option Nat :=
  match res with
  | Except.error _ => some 1
  | Except.ok _ => none

/-- A physical network interface as `run` consumes it: only the MTU
matters to the embedded control flow. -/
structure NetIface where
  mtu : Nat
deriving DecidableEq, Repr

/-- An IPv4 network (flannel's `ip.IP4Net`): a 32-bit address held as a
natural number below `2^32`, plus a prefix length. -/
structure IP4Net where
  ip : Nat
  prefixLen : Nat
deriving DecidableEq, Repr

/-- `backend.SubnetDef`: the subnet assigned to this host and the overlay
MTU computed by the backend. -/
structure SubnetDef where
  net : IP4Net
  mtu : Nat
deriving DecidableEq, Repr

/-- Modelled from the spec: the dotted-quad rendering of a 32-bit IPv4
address used by `ip.IP4.String` (pkg/ip, not under src/), highest octet
first. -/
def ip4String (n : Nat) : String :=
  toString ((n / 2 ^ 24) % 256) ++ "." ++ toString ((n / 2 ^ 16) % 256) ++ "." ++
    toString ((n / 2 ^ 8) % 256) ++ "." ++ toString (n % 256)

/-- Modelled from the spec: `ip.IP4Net.String` (pkg/ip, not under src/)
renders `<dotted-quad>/<prefix-len>`. -/
def ip4NetString (n : IP4Net) : String :=
  ip4String n.ip ++ "/" ++ toString n.prefixLen

/-- `writeSubnetFile` (main.go:70-91). It first mutates its argument,
incrementing `sn.Net.IP` by one (32-bit wrap), then creates the subnet
file (`createOk` is the oracle for `os.Create`) and writes the two
`FLANNEL_*` lines. Returns the mutated `SubnetDef` together with the
lines written (`none` when file creation failed, in which case nothing
is written). -/
def writeSubnetFile (sn : SubnetDef) (createOk : Bool) :
    SubnetDef × Option (List String) :=
  let sn2 : SubnetDef := { net := { ip := (sn.net.ip + 1) % 2 ^ 32,
                                    prefixLen := sn.net.prefixLen },
                           mtu := sn.mtu }
  (sn2,
   if createOk then
     some ["FLANNEL_SUBNET=" ++ ip4NetString sn2.net,
           "FLANNEL_MTU=" ++ toString sn2.mtu]
   else none)

/-- The observable calls `run` (main.go:167-201) makes, in order. -/
inductive RunEvent where
  | lookupIfaceCall : RunEvent
  | initCall : RunEvent
  | writeSubnetFileCall : RunEvent
  | sdNotifyCall : RunEvent
  | runCall : RunEvent
deriving DecidableEq, Repr

/-- The exit-code classification in `run`'s deferred function
(main.go:169-176): a `nil` error or `task.ErrCanceled` sends 0 on the
exit channel, every other error sends 1. -/
def errExitCode (e : Option GoErr) : Nat :=
  match e with
  | none => 0
  | some GoErr.canceled => 0
  | some (GoErr.other _) => 1

/-- `run` (main.go:167-201). `lookupRes` is the oracle for
`lookupIface()` (the error case carries the error, the success case the
interface); `initRes` is the oracle for `be.Init(...)`. Returns the
trace of calls performed and the final value of `err` when the deferred
classifier runs. `be.Run()` returns no error, so after a successful
`Init` the final `err` is `nil`. -/
def run (lookupRes : Except GoErr NetIface) (initRes : Except GoErr SubnetDef) :
    List RunEvent × Option GoErr :=
  match lookupRes with
  | Except.error e => ([RunEvent.lookupIfaceCall], some e)
  | Except.ok iface =>
    if iface.mtu = 0 then
      ([RunEvent.lookupIfaceCall],
       some (GoErr.other "Failed to determine MTU"))
    else
      match initRes with
      | Except.error e => ([RunEvent.lookupIfaceCall, RunEvent.initCall], some e)
      | Except.ok _ =>
        ([RunEvent.lookupIfaceCall, RunEvent.initCall,
          RunEvent.writeSubnetFileCall, RunEvent.sdNotifyCall,
          RunEvent.runCall], none)

/-- The process exit code produced by `main`'s select loop
(main.go:247-249): it reads the code `run` sent on the exit channel and
passes it to `os.Exit` unchanged. -/
def mainExitCode (lookupRes : Except GoErr NetIface)
    (initRes : Except GoErr SubnetDef) : Nat :=
  errExitCode (run lookupRes initRes).2

/-- A created subnet manager; abstract, since `subnet.NewSubnetManager`
lives outside the orchestration layer. Only identity matters here. -/
structure SubnetManager where
  id : Nat
deriving DecidableEq, Repr

/-- One iteration of `makeSubnetManager`'s loop (main.go:130-138) sleeps
one second after a failed attempt; this constant records `time.Sleep(time.Second)`. -/
def retryDelaySeconds : Nat := 1

/-- The retry loop of `makeSubnetManager` (main.go:127-139), run for at
most `fuel` attempts starting at attempt index `i`. `attempts` is the
oracle for successive `subnet.NewSubnetManager` calls. The Go loop is
unbounded; `none` means the loop is still retrying after `fuel`
attempts — it never returns an error. -/
def makeSubnetManagerLoop (attempts : Nat → Except GoErr SubnetManager) :
    Nat → Nat → Option SubnetManager
  | _, 0 => none
  | i, fuel + 1 =>
    match attempts i with
    | Except.ok sm => some sm
    | Except.error _ => makeSubnetManagerLoop attempts (i + 1) fuel

/-- `makeSubnetManager` observed for `fuel` attempts from the first one. -/
def makeSubnetManager (attempts : Nat → Except GoErr SubnetManager)
    (fuel : Nat) : Option SubnetManager :=
  makeSubnetManagerLoop attempts 0 fuel

/-- A registered command-line flag as `flagsFromEnv` sees it: its name,
current value, and whether it was set on the command line (which is what
`fs.Visit` reports). -/
structure GoFlag where
  name : String
  value : String
  wasSet : Bool
deriving DecidableEq, Repr

/-- `strings.Replace(name, "-", "_", -1)`: every dash becomes an
underscore (single-character replacement, so a per-character map). -/
def dashToUnderscore (s : String) : String :=
  String.mk (s.data.map (fun c => if c = '-' then '_' else c))

/-- The environment-variable key for a flag (main.go:61): prefix, an
underscore, the flag name with dashes replaced by underscores, all
uppercased. -/
def envKey (pfx : String) (flagName : String) : String :=
  goToUpper (pfx ++ "_" ++ dashToUnderscore flagName)

/-- `flagsFromEnv` (main.go:54-68). `env` is the oracle for
`os.Getenv` (Go returns `""` for unset variables). Flags already set on
the command line are skipped; otherwise the environment value is applied
when non-empty (and `fs.Set` marks the flag as set). -/
def flagsFromEnv (pfx : String) (env : String → String)
    (fs : List GoFlag) : List GoFlag :=
  fs.map (fun f =>
    if f.wasSet then f
    else
      let val := env (envKey pfx f.name)
      if val = "" then f
      else { f with value := val, wasSet := true })

lemma makeSubnetManagerLoop_some (attempts : Nat → Except GoErr SubnetManager) :
    ∀ fuel i sm, makeSubnetManagerLoop attempts i fuel = some sm →
      ∃ k, k < fuel ∧ attempts (i + k) = Except.ok sm := by
  intro fuel
  induction fuel with
  | zero => intro i sm h; simp [makeSubnetManagerLoop] at h
  | succ fuel ih =>
    intro i sm h
    cases hA : attempts i with
    | ok sm2 =>
      have hs : sm2 = sm := by simpa [makeSubnetManagerLoop, hA] using h
      exact ⟨0, Nat.succ_pos _, by rw [Nat.add_zero, hA, hs]⟩
    | error e =>
      have h2 : makeSubnetManagerLoop attempts (i + 1) fuel = some sm := by
        simpa [makeSubnetManagerLoop, hA] using h
      obtain ⟨k, hk, hk2⟩ := ih (i + 1) sm h2
      refine ⟨k + 1, by omega, ?_⟩
      rw [show i + (k + 1) = i + 1 + k by omega]
      exact hk2

lemma makeSubnetManagerLoop_first (attempts : Nat → Except GoErr SubnetManager) :
    ∀ n i sm, attempts (i + n) = Except.ok sm →
      (∀ j, j < n → ∃ e, attempts (i + j) = Except.error e) →
      makeSubnetManagerLoop attempts i (n + 1) = some sm := by
  intro n
  induction n with
  | zero =>
    intro i sm hok _
    rw [Nat.add_zero] at hok
    simp [makeSubnetManagerLoop, hok]
  | succ n ih =>
    intro i sm hok hfail
    obtain ⟨e, he⟩ := hfail 0 (Nat.succ_pos n)
    rw [Nat.add_zero] at he
    have step : makeSubnetManagerLoop attempts i (n + 1 + 1) =
        makeSubnetManagerLoop attempts (i + 1) (n + 1) := by
      simp [makeSubnetManagerLoop, he]
    rw [step]
    apply ih (i + 1) sm
    · rw [show i + 1 + n = i + (n + 1) by omega]
      exact hok
    · intro j hj
      obtain ⟨e2, he2⟩ := hfail (j + 1) (by omega)
      exact ⟨e2, by rw [show i + 1 + j = i + (j + 1) by omega]; exact he2⟩

lemma makeSubnetManagerLoop_none (attempts : Nat → Except GoErr SubnetManager)
    (hfail : ∀ j, ∃ e, attempts j = Except.error e) :
    ∀ fuel i, makeSubnetManagerLoop attempts i fuel = none := by
  intro fuel
  induction fuel with
  | zero => intro i; rfl
  | succ fuel ih =>
    intro i
    obtain ⟨e, he⟩ := hfail i
    simpa [makeSubnetManagerLoop, he] using ih (i + 1)

/-- C1: backend selection maps the configuration's type tag to a variant:
tag "udp" yields the UDP backend, tag "alloc" the lease-only backend, an
empty backend payload defaults to "udp" without decoding, and an
unrecognized tag makes `newBackend` return an error on which `main`
exits with code 1. -/
theorem newBackend_dispatch (p t : String) (d : Except String String) :
    newBackend "" d = Except.ok BackendKind.udp ∧
    (goToLower t = "udp" → newBackend p (Except.ok t) = Except.ok BackendKind.udp) ∧
    (p.length ≠ 0 → goToLower t = "alloc" →
      newBackend p (Except.ok t) = Except.ok BackendKind.alloc) ∧
    (p.length ≠ 0 → goToLower t ≠ "udp" → goToLower t ≠ "alloc" →
      (∃ e, newBackend p (Except.ok t) = Except.error e) ∧
        mainBackendExit (newBackend p (Except.ok t)) = some 1 ∧ (1 : Nat) ≠ 0) := by
  have hud : goToLower "udp" = "udp" := by decide
  refine ⟨by simp [newBackend, backendSwitch, hud], ?_, ?_, ?_⟩
  · intro ht
    by_cases hp : p.length = 0 <;> simp [newBackend, backendSwitch, hp, ht, hud]
  · intro hp ht
    have hne : goToLower t ≠ "udp" := by rw [ht]; decide
    simp [newBackend, backendSwitch, hp, ht, hne]
  · intro hp h1 h2
    refine ⟨⟨t ++ ": unknown backend type", ?_⟩, ?_, by decide⟩
    · simp [newBackend, backendSwitch, hp, h1, h2]
    · simp [newBackend, backendSwitch, mainBackendExit, hp, h1, h2]

theorem newBackend_dispatch_witness :
    (∃ e, newBackend "x" (Except.ok "foo") = Except.error e) ∧
      mainBackendExit (newBackend "x" (Except.ok "foo")) = some 1 ∧ (1 : Nat) ≠ 0 :=
  (newBackend_dispatch "x" "foo" (Except.ok "foo")).2.2.2
    (by decide) (by decide) (by decide)

/-- C10: tag matching is case-insensitive: any tag whose lowercase form is
"udp" or "alloc" selects the corresponding backend. -/
theorem newBackend_case_insensitive (p t : String) (hp : p.length ≠ 0) :
    (goToLower t = "udp" → newBackend p (Except.ok t) = Except.ok BackendKind.udp) ∧
    (goToLower t = "alloc" → newBackend p (Except.ok t) = Except.ok BackendKind.alloc) := by
  constructor
  · intro ht
    simp [newBackend, backendSwitch, hp, ht]
  · intro ht
    have hne : goToLower t ≠ "udp" := by rw [ht]; decide
    simp [newBackend, backendSwitch, hp, ht, hne]

theorem newBackend_case_insensitive_witness :
    newBackend "x" (Except.ok "UDP") = Except.ok BackendKind.udp ∧
      newBackend "x" (Except.ok "Alloc") = Except.ok BackendKind.alloc :=
  ⟨(newBackend_case_insensitive "x" "UDP" (by decide)).1 (by decide),
   (newBackend_case_insensitive "x" "Alloc" (by decide)).2 (by decide)⟩

/-- C2: in every run of the backend lifecycle, `be.Run()` is called only
after `be.Init` returned successfully (the trace is then exactly
lookup, Init, writeSubnetFile, SdNotify, Run, in that order); `Init`
itself is called only after interface lookup succeeded with a non-zero
MTU; and when `Init` returns an error, `Run` is never called. -/
theorem run_lifecycle_order (lookupRes : Except GoErr NetIface)
    (initRes : Except GoErr SubnetDef) :
    (RunEvent.runCall ∈ (run lookupRes initRes).1 →
      (run lookupRes initRes).1 =
        [RunEvent.lookupIfaceCall, RunEvent.initCall,
         RunEvent.writeSubnetFileCall, RunEvent.sdNotifyCall,
         RunEvent.runCall] ∧ ∃ sn, initRes = Except.ok sn) ∧
    (RunEvent.initCall ∈ (run lookupRes initRes).1 →
      ∃ ifc, lookupRes = Except.ok ifc ∧ ifc.mtu ≠ 0) ∧
    (∀ e, initRes = Except.error e →
      RunEvent.runCall ∉ (run lookupRes initRes).1) := by
  cases lookupRes with
  | error e => refine ⟨?_, ?_, ?_⟩ <;> simp [run]
  | ok ifc =>
    by_cases h : ifc.mtu = 0
    · cases initRes <;> (refine ⟨?_, ?_, ?_⟩ <;> simp [run, h])
    · cases initRes with
      | error e =>
        refine ⟨?_, ?_, ?_⟩ <;> simp [run, h]
      | ok sn =>
        refine ⟨?_, ?_, ?_⟩ <;> simp [run, h]

theorem run_lifecycle_order_witness :
    (run (Except.ok ⟨1500⟩) (Except.ok ⟨⟨0, 24⟩, 1472⟩)).1 =
        [RunEvent.lookupIfaceCall, RunEvent.initCall,
         RunEvent.writeSubnetFileCall, RunEvent.sdNotifyCall,
         RunEvent.runCall] ∧
      ∃ sn, (Except.ok ⟨⟨0, 24⟩, 1472⟩ : Except GoErr SubnetDef) = Except.ok sn :=
  (run_lifecycle_order (Except.ok ⟨1500⟩) (Except.ok ⟨⟨0, 24⟩, 1472⟩)).1 (by decide)

/-- C3: when the interface reports MTU zero, `run` stops before calling
`be.Init` (its trace is only the lookup call), records the
MTU-undetermined error, and the process exit code is 1 (non-zero). -/
theorem run_mtu_zero_fails_before_init (ifc : NetIface)
    (initRes : Except GoErr SubnetDef) (h : ifc.mtu = 0) :
    run (Except.ok ifc) initRes =
      ([RunEvent.lookupIfaceCall], some (GoErr.other "Failed to determine MTU")) ∧
    RunEvent.initCall ∉ (run (Except.ok ifc) initRes).1 ∧
    mainExitCode (Except.ok ifc) initRes = 1 := by
  refine ⟨?_, ?_, ?_⟩ <;> simp [run, mainExitCode, errExitCode, h]

theorem run_mtu_zero_fails_before_init_witness :
    run (Except.ok ⟨0⟩) (Except.ok ⟨⟨0, 24⟩, 1472⟩) =
      ([RunEvent.lookupIfaceCall], some (GoErr.other "Failed to determine MTU")) ∧
    RunEvent.initCall ∉ (run (Except.ok ⟨0⟩) (Except.ok ⟨⟨0, 24⟩, 1472⟩)).1 ∧
    mainExitCode (Except.ok ⟨0⟩) (Except.ok ⟨⟨0, 24⟩, 1472⟩) = 1 :=
  run_mtu_zero_fails_before_init ⟨0⟩ (Except.ok ⟨⟨0, 24⟩, 1472⟩) rfl

/-- C5: the process exit code is exactly the classification of `run`'s
final error: 0 precisely when that error is `nil` or `task.ErrCanceled`,
and otherwise 1 (the exit code is always 0 or 1, and reaches `os.Exit`
unchanged through the exit channel). -/
theorem run_exit_code_classification (lookupRes : Except GoErr NetIface)
    (initRes : Except GoErr SubnetDef) :
    mainExitCode lookupRes initRes = errExitCode (run lookupRes initRes).2 ∧
    (mainExitCode lookupRes initRes = 0 ↔
      ((run lookupRes initRes).2 = none ∨
        (run lookupRes initRes).2 = some GoErr.canceled)) ∧
    (mainExitCode lookupRes initRes = 0 ∨ mainExitCode lookupRes initRes = 1) := by
  refine ⟨rfl, ?_, ?_⟩ <;>
    (cases h : (run lookupRes initRes).2 with
     | none => simp [mainExitCode, h, errExitCode]
     | some e => cases e <;> simp [mainExitCode, h, errExitCode])

/-- C6: `makeSubnetManager` only ever returns a successfully created
subnet manager: any value it produces comes from a successful
`subnet.NewSubnetManager` attempt; after any finite sequence of transient
failures followed by a success it returns that success; and while every
attempt fails it is still retrying (it never surfaces an error). -/
theorem makeSubnetManager_only_success (attempts : Nat → Except GoErr SubnetManager) :
    (∀ fuel sm, makeSubnetManager attempts fuel = some sm →
      ∃ i, i < fuel ∧ attempts i = Except.ok sm) ∧
    (∀ n sm, attempts n = Except.ok sm →
      (∀ j, j < n → ∃ e, attempts j = Except.error e) →
      makeSubnetManager attempts (n + 1) = some sm) ∧
    (∀ fuel, (∀ j, ∃ e, attempts j = Except.error e) →
      makeSubnetManager attempts fuel = none) := by
  refine ⟨?_, ?_, ?_⟩
  · intro fuel sm h
    obtain ⟨k, hk, hk2⟩ := makeSubnetManagerLoop_some attempts fuel 0 sm h
    exact ⟨k, hk, by simpa using hk2⟩
  · intro n sm hok hfail
    have := makeSubnetManagerLoop_first attempts n 0 sm (by simpa using hok)
      (fun j hj => by simpa using hfail j hj)
    simpa [makeSubnetManager] using this
  · intro fuel hfail
    exact makeSubnetManagerLoop_none attempts hfail fuel 0

def attemptsExample : Nat → Except GoErr SubnetManager :=
  fun i => if i = 0 then Except.error (GoErr.other "store unavailable")
           else Except.ok ⟨7⟩

theorem makeSubnetManager_only_success_witness :
    makeSubnetManager attemptsExample 2 = some ⟨7⟩ :=
  (makeSubnetManager_only_success attemptsExample).2.1 1 ⟨7⟩ rfl
    (fun j hj => ⟨GoErr.other "store unavailable", by
      have hj0 : j = 0 := by omega
      subst hj0
      rfl⟩)

/-- C4: on successful file creation, `writeSubnetFile` writes exactly two
lines, `FLANNEL_SUBNET=<address>/<prefix-len>` and `FLANNEL_MTU=<integer>`,
and the written address is the pool-assigned network address incremented
by one (32-bit arithmetic). -/
theorem writeSubnetFile_two_lines (sn : SubnetDef) :
    (writeSubnetFile sn true).2 =
      some ["FLANNEL_SUBNET=" ++
              ip4NetString { ip := (sn.net.ip + 1) % 2 ^ 32,
                             prefixLen := sn.net.prefixLen },
            "FLANNEL_MTU=" ++ toString sn.mtu] ∧
    ((writeSubnetFile sn true).2.map List.length) = some 2 := by
  constructor
  · simp [writeSubnetFile]
  · simp [writeSubnetFile]

/-- C9: `writeSubnetFile` mutates its argument in place: the returned
`SubnetDef` carries the incremented address (so the caller no longer
holds the network address), and a second call on the returned value
writes an address incremented by two. -/
theorem writeSubnetFile_mutates_argument (sn : SubnetDef) (createOk : Bool) :
    (writeSubnetFile sn createOk).1 =
      { net := { ip := (sn.net.ip + 1) % 2 ^ 32,
                 prefixLen := sn.net.prefixLen },
        mtu := sn.mtu } ∧
    (writeSubnetFile (writeSubnetFile sn true).1 true).2 =
      some ["FLANNEL_SUBNET=" ++
              ip4NetString { ip := (sn.net.ip + 2) % 2 ^ 32,
                             prefixLen := sn.net.prefixLen },
            "FLANNEL_MTU=" ++ toString sn.mtu] := by
  constructor
  · simp [writeSubnetFile]
  · simp [writeSubnetFile, Nat.mod_add_mod]

/-- C8: `flagsFromEnv` leaves every flag set on the command line
unchanged, ignores empty environment values, and sets a not-yet-set flag
from its (uppercased, prefixed, dash-to-underscore) environment variable
exactly when that value is non-empty; the flag list keeps its length. -/
theorem flagsFromEnv_spec (pfx : String) (env : String → String)
    (fs : List GoFlag) (i : Nat) (f : GoFlag) (hf : fs.get? i = some f) :
    (flagsFromEnv pfx env fs).length = fs.length ∧
    (f.wasSet = true → (flagsFromEnv pfx env fs).get? i = some f) ∧
    (env (envKey pfx f.name) = "" → (flagsFromEnv pfx env fs).get? i = some f) ∧
    (f.wasSet = false → env (envKey pfx f.name) ≠ "" →
      (flagsFromEnv pfx env fs).get? i =
        some { f with value := env (envKey pfx f.name), wasSet := true }) := by
  have hmap : (flagsFromEnv pfx env fs).get? i =
      (fs.get? i).map (fun f =>
        if f.wasSet then f
        else
          let val := env (envKey pfx f.name)
          if val = "" then f
          else { f with value := val, wasSet := true }) := by
    simp [flagsFromEnv, List.get?_eq_getElem?, List.getElem?_map]
  refine ⟨by simp [flagsFromEnv], ?_, ?_, ?_⟩
  · intro hset
    rw [hmap, hf]
    simp [hset]
  · intro henv
    rw [hmap, hf]
    by_cases hset : f.wasSet <;> simp [hset, henv]
  · intro hset henv
    rw [hmap, hf]
    simp [hset, henv]

theorem flagsFromEnv_spec_witness :
    (flagsFromEnv "FLANNELD"
        (fun k => if k = "FLANNELD_ETCD_PREFIX" then "/other" else "")
        [{ name := "etcd-prefix", value := "/coreos.com/network", wasSet := true }]).get? 0 =
      some { name := "etcd-prefix", value := "/coreos.com/network", wasSet := true } :=
  (flagsFromEnv_spec "FLANNELD"
    (fun k => if k = "FLANNELD_ETCD_PREFIX" then "/other" else "")
    [{ name := "etcd-prefix", value := "/coreos.com/network", wasSet := true }]
    0 { name := "etcd-prefix", value := "/coreos.com/network", wasSet := true }
    rfl).2.1 rfl
